import Mathlib

/-!
Verification of the article-generation core of `takoyaki3-blog-writer`
(`src/lambda/workers/generation_worker.py`), shallowly embedded in Lean.

Strings are modelled as `List Char` (Python `str` is a sequence of code
points, so `len`, slicing and per-character tests coincide).  The stateful
parts (the Gemini HTTP retry loop, the SQS handler) are embedded as pure
functions over an explicit oracle describing the outcome of each network
attempt / the raw text returned by each model call.
-/

abbrev Str := List Char

/-- Python `str.isspace` for the ASCII whitespace characters stripped by
`str.strip()` (space, tab, newline, carriage return, vertical tab, form feed). -/
def isPySpace (c : Char) : Bool :=
  c == ' ' || c == '\t' || c == '\n' || c == '\r' || c == '\x0b' || c == '\x0c'

/-- Python `s.lstrip()`. -/
def py_lstrip (s : Str) : Str := s.dropWhile isPySpace

/-- Python `s.rstrip()`. -/
def py_rstrip (s : Str) : Str := (s.reverse.dropWhile isPySpace).reverse

/-- Python `s.strip()`. -/
def py_strip (s : Str) : Str := py_rstrip (py_lstrip s)

/-- Python `s.strip(chars)` for a character class `p`. -/
def strip_set (p : Char → Bool) (s : Str) : Str :=
  ((s.dropWhile p).reverse.dropWhile p).reverse

/-- Python `s.lower()` (the source only compares ASCII strings). -/
def py_lower (s : Str) : Str := s.map Char.toLower

/-- Python `s.startswith(pre)`. -/
def starts_with (pre s : Str) : Bool := pre.isPrefixOf s

/-- The characters Python `str.splitlines()` treats as line boundaries on
their own: LF, CR, VT, FF, FS, GS, RS, NEL, LINE SEPARATOR and PARAGRAPH
SEPARATOR.  (`"\r\n"` additionally counts as a single boundary.) -/
def isPyLineBreak (c : Char) : Bool :=
  c == '\n' || c == '\r' || c == '\x0b' || c == '\x0c' || c == '\x1c' ||
  c == '\x1d' || c == '\x1e' || c == '\u0085' || c == '\u2028' || c == '\u2029'

/-- Python `s.splitlines()`: breaks at `"\r\n"` and at every single character
of `isPyLineBreak`; a trailing break produces no trailing empty line. -/
def splitlines : Str → List Str
  | [] => []
  | c :: rest =>
    if c = '\r' then
      if rest.head? = some '\n' then splitlines rest else [] :: splitlines rest
    else if isPyLineBreak c then [] :: splitlines rest
    else
      match splitlines rest with
      | [] => [[c]]
      | l :: ls => (c :: l) :: ls

/-- Python `"\n".join(lines)`. -/
def join_nl : List Str → Str
  | [] => []
  | [l] => l
  | l :: ls => l ++ '\n' :: join_nl ls

/-- Python `s.replace(pat, "", 1)`: remove the first occurrence of `pat`. -/
def replace_first : Str → Str → Str
  | [], _ => []
  | c :: rest, pat =>
    if pat.isPrefixOf (c :: rest) then (c :: rest).drop pat.length
    else c :: replace_first rest pat

/-- Index of the last element satisfying `p` (Python `s.rfind`). -/
def rfind_idx (p : Char → Bool) (s : Str) : Option Nat :=
  (s.reverse.findIdx? p).map (fun i => s.length - 1 - i)

/-! ## JSON values and a model of Python `json.loads` / `json.dumps`

The worker round-trips model output through `json.loads` and serialises
tags with `json.dumps(..., ensure_ascii=False)`.  `Json` models the values
that can appear; the parser below is a recursive-descent parser with the
same grammar as Python's (strict strings: unescaped control characters are
rejected).  Numbers are modelled as integers only — the worker never
produces or consumes fractional JSON numbers. -/

inductive Json where
  | str (s : Str)
  | num (n : Int)
  | bool (b : Bool)
  | null
  | arr (xs : List Json)
  | obj (fields : List (Str × Json))

/-- Python truthiness (`if value:`) for JSON values. -/
def jTruthy : Json → Bool
  | .str s => !s.isEmpty
  | .num n => n != 0
  | .bool b => b
  | .null => false
  | .arr xs => !xs.isEmpty
  | .obj fs => !fs.isEmpty

/-- Python `d.get(k)` on a parsed JSON value (only dicts have keys). -/
def jget : Json → Str → Option Json
  | .obj fs, k => (fs.find? (fun p => p.1 == k)).map (fun p => p.2)
  | _, _ => none

/-- JSON inter-token whitespace accepted by `json.loads`. -/
def isJsonWs (c : Char) : Bool := c == ' ' || c == '\t' || c == '\n' || c == '\r'

def skip_ws (s : Str) : Str := s.dropWhile isJsonWs

def hexVal (c : Char) : Option Nat :=
  if '0' ≤ c ∧ c ≤ '9' then some (c.toNat - 48)
  else if 'a' ≤ c ∧ c ≤ 'f' then some (c.toNat - 87)
  else if 'A' ≤ c ∧ c ≤ 'F' then some (c.toNat - 55)
  else none

/-- Parse the body of a JSON string after the opening quote; returns the
decoded content and the remaining input after the closing quote.
Unescaped control characters are rejected, as in Python's strict mode. -/
def parse_string_body : Str → Option (Str × Str)
  | [] => none
  | c :: rest =>
    if c = '"' then some ([], rest)
    else if c = '\\' then
      match rest with
      | [] => none
      | e :: rest2 =>
        if e = '"' then (parse_string_body rest2).map (fun pr => ('"' :: pr.1, pr.2))
        else if e = '\\' then (parse_string_body rest2).map (fun pr => ('\\' :: pr.1, pr.2))
        else if e = '/' then (parse_string_body rest2).map (fun pr => ('/' :: pr.1, pr.2))
        else if e = 'n' then (parse_string_body rest2).map (fun pr => ('\n' :: pr.1, pr.2))
        else if e = 't' then (parse_string_body rest2).map (fun pr => ('\t' :: pr.1, pr.2))
        else if e = 'r' then (parse_string_body rest2).map (fun pr => ('\r' :: pr.1, pr.2))
        else if e = 'b' then (parse_string_body rest2).map (fun pr => ('\x08' :: pr.1, pr.2))
        else if e = 'f' then (parse_string_body rest2).map (fun pr => ('\x0c' :: pr.1, pr.2))
        else if e = 'u' then
          match rest2 with
          | h1 :: h2 :: h3 :: h4 :: rest3 =>
            match hexVal h1, hexVal h2, hexVal h3, hexVal h4 with
            | some a, some b, some c3, some d =>
              let n := ((a * 16 + b) * 16 + c3) * 16 + d
              if n < 1114112 then
                if 0xd800 ≤ n ∧ n < 0xe000 then none
                else (parse_string_body rest3).map (fun pr => (Char.ofNat n :: pr.1, pr.2))
              else none
            | _, _, _, _ => none
          | _ => none
        else none
    else if c.toNat < 32 then none
    else (parse_string_body rest).map (fun pr => (c :: pr.1, pr.2))

def digits_val (ds : Str) : Nat := ds.foldl (fun a c => a * 10 + (c.toNat - 48)) 0

/-- Parse a JSON number.  Only integer literals are supported: the worker
never exchanges fractional numbers, so a fraction or exponent is rejected
rather than modelled as a float. -/
def parse_number (s : Str) : Option (Json × Str) :=
  let negAndRest : Bool × Str := match s with | '-' :: r => (true, r) | _ => (false, s)
  let neg := negAndRest.1
  let s1 := negAndRest.2
  let digits := s1.takeWhile Char.isDigit
  let rest := s1.dropWhile Char.isDigit
  if digits = [] then none
  else
    match rest with
    | '.' :: _ => none
    | 'e' :: _ => none
    | 'E' :: _ => none
    | _ =>
      let v : Int := (digits_val digits : Int)
      some (Json.num (if neg then -v else v), rest)

mutual

/-- Recursive-descent JSON value parser, fuelled by nesting depth. -/
def parse_value : Nat → Str → Option (Json × Str)
  | 0, _ => none
  | fuel + 1, s =>
    match skip_ws s with
    | [] => none
    | c :: rest =>
      if c = '"' then (parse_string_body rest).map (fun pr => (Json.str pr.1, pr.2))
      else if c = '{' then
        match skip_ws rest with
        | '}' :: rest2 => some (Json.obj [], rest2)
        | _ => (parse_members_ne fuel rest).map (fun pr => (Json.obj pr.1, pr.2))
      else if c = '[' then
        match skip_ws rest with
        | ']' :: rest2 => some (Json.arr [], rest2)
        | _ => (parse_elements_ne fuel rest).map (fun pr => (Json.arr pr.1, pr.2))
      else if starts_with ("true".toList) (c :: rest) then some (Json.bool true, (c :: rest).drop 4)
      else if starts_with ("false".toList) (c :: rest) then some (Json.bool false, (c :: rest).drop 5)
      else if starts_with ("null".toList) (c :: rest) then some (Json.null, (c :: rest).drop 4)
      else parse_number (c :: rest)

/-- Parse a non-empty object member list (after the `{`). -/
def parse_members_ne : Nat → Str → Option (List (Str × Json) × Str)
  | 0, _ => none
  | fuel + 1, s =>
    match skip_ws s with
    | '"' :: rest =>
      match parse_string_body rest with
      | none => none
      | some (key, rest2) =>
        match skip_ws rest2 with
        | ':' :: rest3 =>
          match parse_value fuel rest3 with
          | none => none
          | some (v, rest4) =>
            match skip_ws rest4 with
            | ',' :: rest5 => (parse_members_ne fuel rest5).map (fun pr => ((key, v) :: pr.1, pr.2))
            | '}' :: rest5 => some ([(key, v)], rest5)
            | _ => none
        | _ => none
    | _ => none

/-- Parse a non-empty array element list (after the `[`). -/
def parse_elements_ne : Nat → Str → Option (List Json × Str)
  | 0, _ => none
  | fuel + 1, s =>
    match parse_value fuel s with
    | none => none
    | some (v, rest) =>
      match skip_ws rest with
      | ',' :: rest2 => (parse_elements_ne fuel rest2).map (fun pr => (v :: pr.1, pr.2))
      | ']' :: rest2 => some ([v], rest2)
      | _ => none

end

/-- Model of Python `json.loads`: parse one value, require only whitespace
after it. -/
def jsonParse (s : Str) : Option Json :=
  match parse_value (s.length + 1) s with
  | some (v, rest) => if skip_ws rest = [] then some v else none
  | none => none

def hexDigitChar (n : Nat) : Char :=
  if n < 10 then Char.ofNat (48 + n) else Char.ofNat (87 + n)

/-- `json.dumps` escaping of one character (with `ensure_ascii=False`). -/
def json_escape_char (c : Char) : Str :=
  if c = '"' then ['\\', '"']
  else if c = '\\' then ['\\', '\\']
  else if c = '\n' then ['\\', 'n']
  else if c = '\t' then ['\\', 't']
  else if c = '\r' then ['\\', 'r']
  else if c = '\x08' then ['\\', 'b']
  else if c = '\x0c' then ['\\', 'f']
  else if c.toNat < 32 then ['\\', 'u', '0', '0', hexDigitChar (c.toNat / 16), hexDigitChar (c.toNat % 16)]
  else [c]

def json_dumps_string (s : Str) : Str :=
  '"' :: (s.map json_escape_char).flatten ++ ['"']

/-- Python `", ".join(pieces)` (the default `json.dumps` item separator). -/
def join_comma_space : List Str → Str
  | [] => []
  | [x] => x
  | x :: xs => x ++ ',' :: ' ' :: join_comma_space xs

def int_to_str (n : Int) : Str :=
  if n < 0 then '-' :: (Nat.toDigits 10 n.natAbs) else Nat.toDigits 10 n.natAbs

mutual

/-- Model of `json.dumps(value, ensure_ascii=False)` with default separators. -/
def json_dumps : Json → Str
  | .str s => json_dumps_string s
  | .num n => int_to_str n
  | .bool true => "true".toList
  | .bool false => "false".toList
  | .null => "null".toList
  | .arr xs => '[' :: join_comma_space (json_dumps_list xs) ++ [']']
  | .obj fs => '{' :: join_comma_space (json_dumps_fields fs) ++ ['}']

def json_dumps_list : List Json → List Str
  | [] => []
  | x :: xs => json_dumps x :: json_dumps_list xs

def json_dumps_fields : List (Str × Json) → List Str
  | [] => []
  | (k, v) :: fs => (json_dumps_string k ++ ':' :: ' ' :: json_dumps v) :: json_dumps_fields fs

end

/-! ## The canonical Article record (§3 of the spec)

`_normalize_article_json` always produces a dict with exactly these six
leaf fields; `Article` is that shape with `capture_info` flattened into
its two string fields. -/

structure Article where
  title : Str
  date : Str
  location : Str
  tags : List Str
  body_markdown : Str
  captured_at : Str
  capture_location : Str
deriving DecidableEq

/-- The dict an `Article` stands for (field order as produced by the source). -/
def article_to_json (a : Article) : Json :=
  Json.obj [
    ("title".toList, .str a.title),
    ("date".toList, .str a.date),
    ("location".toList, .str a.location),
    ("tags".toList, .arr (a.tags.map Json.str)),
    ("body_markdown".toList, .str a.body_markdown),
    ("capture_info".toList, .obj [
      ("captured_at".toList, .str a.captured_at),
      ("location".toList, .str a.capture_location)])]

/-! ## generation_worker.py, embedded -/

def GEMINI_MODEL : Str := "gemini-3-flash-preview".toList
def GEMINI_MAX_RETRIES : Nat := 2

/-- `_as_text` on a Python string value: strip, and return `None` if blank. -/
def as_text_str (s : Str) : Option Str :=
  let t := py_strip s
  if t = [] then none else some t

/-- `_as_text` on an arbitrary (JSON) value: non-strings give `None`. -/
def as_text_json : Json → Option Str
  | .str s => as_text_str s
  | _ => none

/-- `_as_text(d.get(k))`-style lookup. -/
def as_text_opt (v : Option Json) : Option Str := v.bind as_text_json

def as_text_str_opt (v : Option Str) : Option Str := v.bind as_text_str

/-- `_normalize_tags`: keep only entries `_as_text` accepts. -/
def normalize_tags : Json → List Str
  | .arr xs => xs.filterMap as_text_json
  | _ => []

def normalize_tags_opt : Option Json → List Str
  | some j => normalize_tags j
  | none => []

def is_dquote (c : Char) : Bool := c == '"'
def is_squote (c : Char) : Bool := c == '\''

/-- One piece of the comma-splitting branch of `_parse_tags_value`:
`part.strip().strip('"').strip("'")`. -/
def clean_tag_piece (part : Str) : Str :=
  strip_set is_squote (strip_set is_dquote (py_strip part))

/-- `[part.strip().strip('"').strip("'") for part in s.split(",") if part.strip()]` -/
def split_comma_tags (s : Str) : List Str :=
  ((s.splitOn ',').filter (fun part => py_strip part ≠ [])).map clean_tag_piece

/-- `_parse_tags_value`: front-matter `tags` given as a raw string. -/
def parse_tags_value : Option Str → List Str
  | none => []
  | some value =>
    if value = [] then []
    else
      let raw := py_strip value
      if raw = [] then []
      else if raw.head? = some '[' ∧ raw.getLast? = some ']' then
        match jsonParse raw with
        | some parsed => normalize_tags parsed
        | none =>
          let inner := py_strip (raw.drop 1).dropLast
          if inner = [] then [] else split_comma_tags inner
      else split_comma_tags raw

/-- `_strip_top_heading`. -/
def strip_top_heading (body : Str) : Str :=
  let lines := splitlines (py_lstrip body)
  match lines with
  | [] => py_strip body
  | l0 :: rest =>
    if starts_with ("# ".toList) l0 then
      let lines2 := match rest with
        | r0 :: rtail => if py_strip r0 = [] then rtail else rest
        | [] => []
      py_strip (join_nl lines2)
    else py_strip (join_nl (l0 :: rest))

/-- The capture-info bullet loop body of `_split_capture_info`:
fold over the capture lines, later assignments overwriting earlier ones. -/
def capture_fold (acc : Option Str × Option Str) (line : Str) : Option Str × Option Str :=
  let s0 := py_strip line
  let s1 := if starts_with ("-".toList) s0 then py_strip (s0.drop 1) else s0
  if s1.contains ':' then
    let k := py_lower (py_strip (s1.takeWhile (fun c => c ≠ ':')))
    let v := py_strip (((s1.dropWhile (fun c => c ≠ ':')).drop 1))
    if k = "captured_at".toList then
      (some (if v = [] then "unknown".toList else v), acc.2)
    else if k = "location".toList then
      (acc.1, some (if v = [] then "unspecified".toList else v))
    else acc
  else acc

/-- `_split_capture_info`: split a trailing `## Capture info` section off the
body; returns (body, captured_at?, location?). -/
def split_capture_info (body : Str) : Str × Option Str × Option Str :=
  let lines := splitlines body
  match lines.findIdx? (fun l => py_lower (py_strip l) == "## capture info".toList) with
  | none => (py_strip body, none, none)
  | some ci =>
    let capture_lines := (lines.drop (ci + 1)).takeWhile
      (fun l => ¬ (starts_with ("## ".toList) (py_strip l) ∨ starts_with ("# ".toList) (py_strip l)))
    let body2 := py_strip (join_nl (lines.take ci))
    let kv := capture_lines.foldl capture_fold (none, none)
    (body2, kv)

/-- Parse one front-matter `key: value` line into the accumulating dict. -/
def fm_insert (fm : List (Str × Str)) (k v : Str) : List (Str × Str) :=
  if fm.any (fun p => p.1 == k) then fm.map (fun p => if p.1 == k then (k, v) else p)
  else fm ++ [(k, v)]

def fm_get (fm : List (Str × Str)) (k : Str) : Option Str :=
  (fm.find? (fun p => p.1 == k)).map (fun p => p.2)

/-- The loop body of `_parse_front_matter`: one `key: value` line. -/
def fm_line_step (fm : List (Str × Str)) (line : Str) : List (Str × Str) :=
  if line.contains ':' then
    let k := line.takeWhile (fun c => c ≠ ':')
    let v := (line.dropWhile (fun c => c ≠ ':')).drop 1
    fm_insert fm (py_lower (py_strip k)) (strip_set is_dquote (py_strip v))
  else fm

def parse_front_matter (lines : List Str) : List (Str × Str) :=
  lines.foldl fm_line_step []

/-- Index of the closing `---` of a front-matter block (scan from line 1). -/
def find_fm_end (lines : List Str) : Option Nat :=
  ((lines.drop 1).findIdx? (fun l => py_strip l == "---".toList)).map (fun i => i + 1)

/-- `_parse_markdown_article`: returns the loosely-parsed article dict. -/
def parse_markdown_article (text created_at privacy_level fallback_title : Str) : Option Json :=
  if text = [] then none
  else
    let candidate := py_strip text
    if candidate = [] then none
    else
      let lines := splitlines candidate
      let fmAndBody : List (Str × Str) × List Str :=
        match lines with
        | [] => ([], lines)
        | l0 :: _ =>
          if py_strip l0 == "---".toList then
            match find_fm_end lines with
            | some endIdx =>
              (parse_front_matter ((lines.drop 1).take (endIdx - 1)), lines.drop (endIdx + 1))
            | none => ([], lines)
          else ([], lines)
      let fm := fmAndBody.1
      let body_lines := fmAndBody.2
      let body0 := py_strip (join_nl body_lines)
      if body0 = [] then none
      else
        let title1 := as_text_str_opt (fm_get fm ("title".toList))
        let date1 := as_text_str_opt (fm_get fm ("date".toList))
        let location1 := as_text_str_opt (fm_get fm ("location".toList))
        let tags := parse_tags_value (fm_get fm ("tags".toList))
        let title2 := match title1 with
          | some t => some t
          | none => (body_lines.find? (fun l => starts_with ("# ".toList) l)).map
              (fun l => py_strip (l.drop 2))
        let title := match title2 with
          | some t => if t = [] then fallback_title else t
          | none => fallback_title
        let body1 := strip_top_heading body0
        let r := split_capture_info body1
        if r.1 = [] then none
        else
          some (Json.obj [
            ("title".toList, .str title),
            ("date".toList, .str (date1.getD created_at)),
            ("location".toList, .str (location1.getD privacy_level)),
            ("tags".toList, .arr (tags.map Json.str)),
            ("body_markdown".toList, .str r.1),
            ("capture_info".toList, .obj [
              ("captured_at".toList, .str ((r.2.1).getD ("unknown".toList))),
              ("location".toList, .str ((r.2.2).getD ("unspecified".toList)))])])

/-- `_article_body_length` (on the `Option` of a current candidate). -/
def article_body_length : Option Article → Nat
  | none => 0
  | some a => a.body_markdown.length

/-- `capture = data.get("capture_info") if isinstance(data.get("capture_info"), dict) else {}`. -/
def as_dict_or_empty : Option Json → Json
  | some (Json.obj fs) => Json.obj fs
  | _ => Json.obj []

/-- `_normalize_article_json`. -/
def normalize_article_json (data : Json) (created_at privacy_level fallback_title : Str) : Article :=
  let capture : Json := as_dict_or_empty (jget data ("capture_info".toList))
  { title := (as_text_opt (jget data ("title".toList))).getD fallback_title
    date := (as_text_opt (jget data ("date".toList))).getD created_at
    location := (as_text_opt (jget data ("location".toList))).getD privacy_level
    tags := normalize_tags_opt (jget data ("tags".toList))
    body_markdown := (as_text_opt (jget data ("body_markdown".toList))).getD []
    captured_at := (as_text_opt (jget capture ("captured_at".toList))).getD ("unknown".toList)
    capture_location := (as_text_opt (jget capture ("location".toList))).getD ("unspecified".toList) }

def is_backtick (c : Char) : Bool := c == '`'

/-- `_extract_json`. -/
def extract_json (text : Str) : Option Json :=
  if text = [] then none
  else
    let c0 := py_strip text
    let candidate :=
      if starts_with ("```".toList) c0 then
        py_strip (replace_first (strip_set is_backtick c0) ("json".toList))
      else c0
    match jsonParse candidate with
    | some parsed => match parsed with | Json.obj fs => some (Json.obj fs) | _ => none
    | none =>
      match candidate.findIdx? (fun c => c == '{'), rfind_idx (fun c => c == '}') candidate with
      | some start, some stop =>
        if start < stop then
          match jsonParse ((candidate.drop start).take (stop - start + 1)) with
          | some parsed => match parsed with | Json.obj fs => some (Json.obj fs) | _ => none
          | none => none
        else none
      | _, _ => none

def not_valid_json_msg : Str := "Gemini output was not valid JSON; fallback markdown used.".toList
def parsed_as_markdown_msg : Str := "Gemini output was not valid JSON; parsed as markdown.".toList

/-- `_coerce_response_to_article_json`. -/
def coerce_response_to_article_json (response_text created_at privacy_level fallback_title : Str) :
    Option Article × Str :=
  let markdown_path : Option Article × Str :=
    match parse_markdown_article response_text created_at privacy_level fallback_title with
    | none => (none, not_valid_json_msg)
    | some c => (some (normalize_article_json c created_at privacy_level fallback_title),
                 parsed_as_markdown_msg)
  match extract_json response_text with
  | some c =>
    if jTruthy c && (as_text_opt (jget c ("body_markdown".toList))).isSome then
      (some (normalize_article_json c created_at privacy_level fallback_title), [])
    else markdown_path
  | none => markdown_path

/-- `_build_markdown`: the deterministic placeholder article. -/
def build_markdown (title created_at privacy_level : Str) : Str :=
  "---\n".toList ++
  "title: \"".toList ++ title ++ "\"\n".toList ++
  "date: ".toList ++ created_at ++ ['\n'] ++
  "location: ".toList ++ privacy_level ++ ['\n'] ++
  "tags: []\n".toList ++
  "---\n\n".toList ++
  "# ".toList ++ title ++ "\n\n".toList ++
  "This body is a placeholder. Replace with Gemini output after wiring the model call.\n\n".toList ++
  "## Capture info\n".toList ++
  "- captured_at: unknown\n".toList ++
  "- location: unspecified\n".toList

/-- `article_json.get(k) or default`, for the string fields of
`_build_markdown_from_json`.  (A truthy non-string value would be rendered
with `str()` in Python; such values never reach this function, which is
only called on normalized article dicts.) -/
def jstr_or (j : Json) (k : Str) (d : Str) : Str :=
  match jget j k with
  | some (Json.str s) => if s = [] then d else s
  | _ => d

/-- `_build_markdown_from_json`.  `now` models `datetime.utcnow().isoformat()+"Z"`,
the fallback used when the dict has no truthy `date`. -/
def build_markdown_from_json (article_json : Json) (now : Str) : Str :=
  let title := jstr_or article_json ("title".toList) ("Untitled".toList)
  let date := jstr_or article_json ("date".toList) now
  let location := jstr_or article_json ("location".toList) ("area".toList)
  let tags_yaml : Str :=
    match jget article_json ("tags".toList) with
    | some (Json.arr xs) => if xs.isEmpty then "[]".toList else json_dumps (Json.arr xs)
    | _ => "[]".toList
  let body := jstr_or article_json ("body_markdown".toList) []
  let capture : Json :=
    match jget article_json ("capture_info".toList) with
    | some c => if jTruthy c then c else Json.obj []
    | none => Json.obj []
  let captured_at := jstr_or capture ("captured_at".toList) ("unknown".toList)
  let capture_location := jstr_or capture ("location".toList) ("unspecified".toList)
  "---\n".toList ++
  "title: \"".toList ++ title ++ "\"\n".toList ++
  "date: ".toList ++ date ++ ['\n'] ++
  "location: ".toList ++ location ++ ['\n'] ++
  "tags: ".toList ++ tags_yaml ++ ['\n'] ++
  "---\n\n".toList ++
  "# ".toList ++ title ++ "\n\n".toList ++
  py_strip body ++ "\n\n".toList ++
  "## Capture info\n".toList ++
  "- captured_at: ".toList ++ captured_at ++ ['\n'] ++
  "- location: ".toList ++ capture_location ++ ['\n']

/-- `_min_chars_for_length`. -/
def min_chars_for_length (length : Str) : Nat :=
  if length = "short".toList then 300
  else if length = "long".toList then 1200
  else 600

/-! ## The Escalation Controller (handler lines 744-803)

The three model calls are represented by the raw texts they return (the
code path where a call raises is outside this embedding: the handler then
records the exception string and stops escalating).  `Stage` records which
model-call stages were actually performed. -/

inductive Stage where
  | INITIAL
  | RETRIED
  | EXPANDED
deriving DecidableEq

structure EscOut where
  article_json : Option Article
  error_message : Str
  stages : List Stage
deriving DecidableEq

def short_output_msg : Str := "Output shorter than requested.".toList
def key_missing_msg : Str := "Gemini API key is missing.".toList
def empty_output_msg : Str := "Gemini output was empty; fallback markdown used.".toList

/-- Lines 783-787 of the handler (the DONE adjustment): an article still
under the floor appends `"Output shorter than requested."` to the warning
(`f"{error_message} {suffix}".strip()`); an article meeting the floor
clears the warning; no article leaves it unchanged. -/
def done_adjust (min_chars : Nat) (a : Option Article) (err : Str) : Str :=
  match a with
  | some b =>
    if b.body_markdown.length < min_chars then py_strip (err ++ ' ' :: short_output_msg)
    else []
  | none => err

/-- Lines 755-787 of the handler, given the coerce results of the three
attempts.  `r1`/`r2` are consulted only when the corresponding call is
made; `stages` lists the calls performed. -/
def escalate_results (min_chars : Nat) (r0 r1 r2 : Option Article × Str) : EscOut :=
  let step : Option Article × Str × List Stage :=
    if article_body_length r0.1 < min_chars then
      -- lines 756-768: retry, unconditionally replacing on a parsed article
      let ar1 : Option Article × Str :=
        match r1.1 with
        | some a => (some a, r1.2)
        | none => (r0.1, r0.2)
      -- lines 770-781: expand, replacing only on a non-regressing body
      match ar1.1 with
      | some b =>
        if b.body_markdown.length < min_chars then
          match r2.1 with
          | some ex =>
            if b.body_markdown.length ≤ ex.body_markdown.length then
              (some ex, r2.2, [Stage.INITIAL, Stage.RETRIED, Stage.EXPANDED])
            else (some b, ar1.2, [Stage.INITIAL, Stage.RETRIED, Stage.EXPANDED])
          | none => (some b, ar1.2, [Stage.INITIAL, Stage.RETRIED, Stage.EXPANDED])
        else (some b, ar1.2, [Stage.INITIAL, Stage.RETRIED])
      | none => (none, ar1.2, [Stage.INITIAL, Stage.RETRIED])
    else (r0.1, r0.2, [Stage.INITIAL])
  ⟨step.1, done_adjust min_chars step.1 step.2.1, step.2.2⟩

/-- The escalation chain on the raw texts returned by the three model
calls, composing `_coerce_response_to_article_json` exactly as the handler
does. -/
def escalate_texts (min_chars : Nat) (t0 t1 t2 created_at privacy_level fallback_title : Str) :
    EscOut :=
  escalate_results min_chars
    (coerce_response_to_article_json t0 created_at privacy_level fallback_title)
    (coerce_response_to_article_json t1 created_at privacy_level fallback_title)
    (coerce_response_to_article_json t2 created_at privacy_level fallback_title)

/-! ## The per-record handler body (lines 717-833)

One work unit produces exactly one outcome, written to the article and run
registries.  `body_json = none` encodes the literal `{"status": "fallback"}`
object of line 817. -/

structure GenerationOutcome where
  article_status : Str
  updated_at : Str
  title : Str
  body_markdown : Str
  body_json : Option Article
  run_status : Str
  completed_at : Str
  model : Str
  error_message : Str
deriving DecidableEq

structure ProcessResult where
  outcome : GenerationOutcome
  stages : List Stage
deriving DecidableEq

/-- The handler body for one valid record, from line 728 on.  `api_key` is
the credential `_get_api_key()` returned; `length_tier` and
`privacy_level` are the (string-typed) payload fields; `now` models the
`datetime.utcnow()` call inside `_build_markdown_from_json`; `t0 t1 t2`
are the texts the three potential model calls return. -/
def process_record (api_key length_tier article_id created_at privacy_level now t0 t1 t2 : Str) :
    ProcessResult :=
  let title0 := "Auto draft ".toList ++ article_id.take 8
  let min_chars := min_chars_for_length length_tier
  let esc : EscOut :=
    if api_key ≠ [] then
      escalate_texts min_chars t0 t1 t2 created_at privacy_level title0
    else ⟨none, key_missing_msg, []⟩
  let article_json := esc.article_json
  -- lines 794-798
  let title := match article_json with
    | some a => if a.title = [] then title0 else a.title
    | none => title0
  let markdown := match article_json with
    | some a => build_markdown_from_json (article_to_json a) now
    | none => []
  -- lines 800-803
  let final_pair : Str × Str :=
    if markdown = [] then
      (build_markdown title created_at privacy_level,
       if esc.error_message = [] then empty_output_msg else esc.error_message)
    else (markdown, esc.error_message)
  { outcome :=
      { article_status := "draft".toList
        updated_at := created_at
        title := title
        body_markdown := final_pair.1
        body_json := article_json
        run_status := "completed".toList
        completed_at := created_at
        model := GEMINI_MODEL
        error_message := final_pair.2 }
    stages := esc.stages }

/-! ## The Model Client retry loop (`_call_gemini`, lines 664-705)

The network is modelled by an oracle giving each attempt's outcome.  The
loop is structurally recursive on the remaining retry budget
(`fuel = GEMINI_MAX_RETRIES - attempt`, exactly the Python loop's
`attempt >= GEMINI_MAX_RETRIES` exit test). -/

inductive AttemptResult where
  | success (raw : Json)
  | httpError (code : Nat) (detail : Str)
  | timeoutErr (msg : Str)
  | urlTimeout (msg : Str)
  | urlOther (msg : Str)
  | otherExc (msg : Str)

def gemini_api_error_msg (code : Nat) (detail : Str) : Str :=
  "Gemini API error: ".toList ++ Nat.toDigits 10 code ++ ' ' :: detail

def gemini_request_failed_msg (msg : Str) : Str :=
  "Gemini API request failed: ".toList ++ msg

structure LoopOut where
  result : Except Str Json
  attempts : Nat
  backoffs : List Nat

/-- The `for attempt in range(GEMINI_MAX_RETRIES + 1)` loop.  `backoffs`
records the `time.sleep(min(2 ** attempt, 8))` calls performed. -/
def gemini_loop_from (f : Nat → AttemptResult) : Nat → Nat → LoopOut
  | attempt, fuel =>
    match f attempt with
    | .success raw => ⟨.ok raw, attempt + 1, []⟩
    | .httpError c d => ⟨.error (gemini_api_error_msg c d), attempt + 1, []⟩
    | .timeoutErr m =>
      match fuel with
      | 0 => ⟨.error (gemini_request_failed_msg m), attempt + 1, []⟩
      | fuel2 + 1 =>
        let r := gemini_loop_from f (attempt + 1) fuel2
        ⟨r.result, r.attempts, min (2 ^ attempt) 8 :: r.backoffs⟩
    | .urlTimeout m =>
      match fuel with
      | 0 => ⟨.error (gemini_request_failed_msg m), attempt + 1, []⟩
      | fuel2 + 1 =>
        let r := gemini_loop_from f (attempt + 1) fuel2
        ⟨r.result, r.attempts, min (2 ^ attempt) 8 :: r.backoffs⟩
    | .urlOther m => ⟨.error (gemini_request_failed_msg m), attempt + 1, []⟩
    | .otherExc m => ⟨.error (gemini_request_failed_msg m), attempt + 1, []⟩

def gemini_request_loop (f : Nat → AttemptResult) (max_retries : Nat) : LoopOut :=
  gemini_loop_from f 0 max_retries

/-- Lines 699-705: text extraction from the decoded response payload.
(`candidates[0]` on a truthy non-list and a truthy non-dict `content`
would raise in Python; neither arises from a decoded JSON payload of the
modelled API and both are out of scope here.) -/
def extract_candidates_text (payload : Json) : Str :=
  let candidates : Json :=
    match jget payload ("candidates".toList) with
    | some j => if jTruthy j then j else Json.arr []
    | none => Json.arr []
  match candidates with
  | Json.arr [] => []
  | Json.arr (c0 :: _) =>
    let content : Json :=
      match jget c0 ("content".toList) with
      | some j => if jTruthy j then j else Json.obj []
      | none => Json.obj []
    let parts : List Json :=
      match jget content ("parts".toList) with
      | some (Json.arr xs) => if xs.isEmpty then [] else xs
      | _ => []
    let text := (parts.map (fun p =>
      match p with
      | Json.obj _ => match jget p ("text".toList) with
        | some (Json.str s) => s
        | _ => []
      | _ => [])).flatten
    py_strip text
  | _ => []

/-- The `(text, GEMINI_MODEL)` pair `_call_gemini` returns on a decoded
payload. -/
def gemini_response_text (payload : Json) : Str × Str :=
  (extract_candidates_text payload, GEMINI_MODEL)

/-- `"```json\n" + text + "\n```"`: a raw model text wrapped in a code
fence with a `json` language tag (the shape claim C7 quantifies over). -/
def fence_wrap (t : Str) : Str := "```json\n".toList ++ t ++ "\n```".toList

/-! ## Well-formedness conditions for the markdown round trip (C6)

`_build_markdown_from_json` writes each front-matter field on one line and
re-parses values through `strip`/`strip('"')`; the round trip therefore
holds for articles whose textual fields are single-line, already stripped,
and do not collide with the markdown structure. -/

/-- A tag that `json.dumps` serialises without escapes and that keeps the
`tags:` front-matter line a single line: non-empty, stripped, no quote,
backslash, control or line-break characters. -/
def plain_tag (t : Str) : Bool :=
  !t.isEmpty && (py_strip t == t) &&
    t.all (fun c => !(c == '"') && !(c == '\\') && 32 ≤ c.toNat && !(isPyLineBreak c))

/-- The character-level content of `plain_tag`. -/
def plain_char (c : Char) : Bool :=
  !(c == '"') && !(c == '\\') && 32 ≤ c.toNat && !(isPyLineBreak c)

theorem py_rstrip_eq_rdropWhile (s : Str) : py_rstrip s = List.rdropWhile isPySpace s := rfl

theorem py_strip_eq (s : Str) :
    py_strip s = List.rdropWhile isPySpace (List.dropWhile isPySpace s) := rfl

theorem length_dropWhile_le_len (p : Char → Bool) (l : Str) :
    (List.dropWhile p l).length ≤ l.length := by
  induction l with
  | nil => simp
  | cons c t ih =>
    rw [List.dropWhile_cons]
    split
    · exact Nat.le_succ_of_le ih
    · simp

theorem dropWhile_eq_self_of_prefix {p : Char → Bool} :
    ∀ (l1 l2 : Str), l1 <+: l2 → List.dropWhile p l2 = l2 → List.dropWhile p l1 = l1 := by
  intro l1 l2 hpre hdrop
  cases l1 with
  | nil => simp
  | cons c t =>
    obtain ⟨r, hr⟩ := hpre
    subst hr
    simp only [List.cons_append, List.dropWhile_cons] at hdrop ⊢
    by_cases hc : p c = true
    · simp only [hc, if_true] at hdrop
      have hlen := congrArg List.length hdrop
      have hle := length_dropWhile_le_len p (t ++ r)
      simp [List.length_append] at hlen hle
      omega
    · simp [hc]

theorem py_strip_idem (s : Str) : py_strip (py_strip s) = py_strip s := by
  rw [py_strip_eq s, py_strip_eq]
  have h1 : List.dropWhile isPySpace (List.dropWhile isPySpace s) =
      List.dropWhile isPySpace s := List.dropWhile_idempotent _ _
  have h2 : List.dropWhile isPySpace
      (List.rdropWhile isPySpace (List.dropWhile isPySpace s)) =
      List.rdropWhile isPySpace (List.dropWhile isPySpace s) :=
    dropWhile_eq_self_of_prefix _ _ (List.rdropWhile_prefix _ _) h1
  rw [h2, List.rdropWhile_idempotent]

theorem as_text_json_stripped {j : Json} {t : Str} (h : as_text_json j = some t) :
    t ≠ [] ∧ py_strip t = t := by
  cases j <;> simp [as_text_json, as_text_str] at h
  rcases h with ⟨hne, ht⟩
  subst ht
  exact ⟨hne, py_strip_idem _⟩

/-! ## Claim theorems -/

/-- **C2** — In the Escalation Controller, when the initial candidate's body
is under the length floor, a RETRIED candidate that parses replaces the
current Article unconditionally (first conjunct: the final article is the
retried one `a1`, with no constraint relating `a1`'s body length to `a0`'s),
whereas an EXPANDED candidate replaces the current Article only if its body
length is at least the current one's (second conjunct, where the retry
produced no article so the current candidate is still `b0`). -/
theorem C2_retry_unconditional_expand_monotonic
    (min_chars : Nat) (a0 a1 b0 b2 : Article) (w0 w1 w2 v0 v1 v2 : Str)
    (hl0 : a0.body_markdown.length < min_chars)
    (gl0 : b0.body_markdown.length < min_chars) :
    (escalate_results min_chars (some a0, w0) (some a1, w1) (none, w2)).article_json = some a1 ∧
    (escalate_results min_chars (some b0, v0) (none, v1) (some b2, v2)).article_json =
      (if b0.body_markdown.length ≤ b2.body_markdown.length then some b2 else some b0) := by
  constructor
  · simp only [escalate_results, article_body_length, hl0, if_true]
    by_cases h : a1.body_markdown.length < min_chars <;> simp [h]
  · simp only [escalate_results, article_body_length, hl0, gl0, if_true]
    by_cases h : b0.body_markdown.length ≤ b2.body_markdown.length <;> simp [gl0, h]

/-- **C2 witness**: a concrete instance — the retried article (body length 2)
unconditionally replaces an initial article of body length 5, and a concrete
expanded article of length 7 replaces a current candidate of length 5. -/
theorem C2_witness :
    (escalate_results 300
      (some ⟨['t'], ['d'], ['l'], [], ['x','x','x','x','x'], ['u'], ['s']⟩, [])
      (some ⟨['t'], ['d'], ['l'], [], ['y','y'], ['u'], ['s']⟩, [])
      (none, [])).article_json = some ⟨['t'], ['d'], ['l'], [], ['y','y'], ['u'], ['s']⟩ ∧
    (escalate_results 300
      (some ⟨['t'], ['d'], ['l'], [], ['x','x','x','x','x'], ['u'], ['s']⟩, [])
      (none, [])
      (some ⟨['t'], ['d'], ['l'], [], ['z','z','z','z','z','z','z'], ['u'], ['s']⟩, [])).article_json =
      (if (5 : Nat) ≤ 7 then some ⟨['t'], ['d'], ['l'], [], ['z','z','z','z','z','z','z'], ['u'], ['s']⟩
       else some ⟨['t'], ['d'], ['l'], [], ['x','x','x','x','x'], ['u'], ['s']⟩) := by
  have h := C2_retry_unconditional_expand_monotonic 300
    ⟨['t'], ['d'], ['l'], [], ['x','x','x','x','x'], ['u'], ['s']⟩
    ⟨['t'], ['d'], ['l'], [], ['y','y'], ['u'], ['s']⟩
    ⟨['t'], ['d'], ['l'], [], ['x','x','x','x','x'], ['u'], ['s']⟩
    ⟨['t'], ['d'], ['l'], [], ['z','z','z','z','z','z','z'], ['u'], ['s']⟩
    [] [] [] [] [] [] (by decide) (by decide)
  exact h

/-- **C9** — At the DONE stage: if an Article exists whose final body meets
the floor, the accumulated warning is cleared (first conjunct, for any prior
warning `w` and any retry/expand results); if an Article exists whose final
body is still under the floor, "Output shorter than requested." is appended
to the accumulated warning, separated by a space and stripped exactly as
`f"{error_message} {suffix}".strip()` does (second conjunct, in the run
where neither the retry nor the expansion produced an article, so the
accumulated warning is the initial one `wb`). -/
theorem C9_done_warning (min_chars : Nat) (a b : Article) (w wb w1 w2 : Str)
    (r1 r2 : Option Article × Str)
    (hge : min_chars ≤ a.body_markdown.length)
    (hlt : b.body_markdown.length < min_chars) :
    (escalate_results min_chars (some a, w) r1 r2).error_message = [] ∧
    (escalate_results min_chars (some b, wb) (none, w1) (none, w2)).error_message =
      py_strip (wb ++ ' ' :: short_output_msg) := by
  have hnlt : ¬ a.body_markdown.length < min_chars := Nat.not_lt.mpr hge
  constructor
  · simp [escalate_results, article_body_length, done_adjust, hnlt]
  · simp [escalate_results, article_body_length, done_adjust, hlt]

set_option maxRecDepth 4000 in
/-- **C9 witness**: a concrete instance with floor 300 — an article of body
length 300 clears the warning `"w"`, and an article of body length 1 with
accumulated warning `"warn"` ends with `"warn Output shorter than
requested."`. -/
theorem C9_witness :
    (escalate_results 300
      (some ⟨['t'], ['d'], ['l'], [], List.replicate 300 'x', ['u'], ['s']⟩, ['w']) (none, [])
      (none, [])).error_message = [] ∧
    (escalate_results 300
      (some ⟨['t'], ['d'], ['l'], [], ['x'], ['u'], ['s']⟩, "warn".toList) (none, [])
      (none, [])).error_message =
      py_strip ("warn".toList ++ ' ' :: short_output_msg) := by
  have h := C9_done_warning 300
    ⟨['t'], ['d'], ['l'], [], List.replicate 300 'x', ['u'], ['s']⟩
    ⟨['t'], ['d'], ['l'], [], ['x'], ['u'], ['s']⟩
    ['w'] ("warn".toList) [] [] (none, []) (none, []) (by decide) (by decide)
  exact h

theorem min_chars_pos (t : Str) : 0 < min_chars_for_length t := by
  unfold min_chars_for_length
  split
  · norm_num
  · split <;> norm_num

/-- **C1 (amended)** — For `length="short"` with an initial normalized body of
50 characters, the controller performs RETRIED; when the retried candidate
parses but is still under the 300-character floor it also performs EXPANDED,
and the final stored body length is the maximum of the RETRIED and EXPANDED
candidates' body lengths.  (The original claim's maximum over all three
attempts is false: a parsed RETRIED candidate replaces INITIAL
unconditionally, so the final body can regress below the INITIAL length —
see the counterexample.) -/
theorem C1_short_escalation_amended
    (t0 t1 t2 created_at privacy_level fallback_title : Str)
    (a0 a1 a2 : Article) (w0 w1 w2 : Str)
    (h0 : coerce_response_to_article_json t0 created_at privacy_level fallback_title = (some a0, w0))
    (hl0 : a0.body_markdown.length = 50)
    (h1 : coerce_response_to_article_json t1 created_at privacy_level fallback_title = (some a1, w1))
    (hl1 : a1.body_markdown.length < 300)
    (h2 : coerce_response_to_article_json t2 created_at privacy_level fallback_title = (some a2, w2)) :
    Stage.RETRIED ∈ (escalate_texts (min_chars_for_length ("short".toList))
      t0 t1 t2 created_at privacy_level fallback_title).stages ∧
    Stage.EXPANDED ∈ (escalate_texts (min_chars_for_length ("short".toList))
      t0 t1 t2 created_at privacy_level fallback_title).stages ∧
    article_body_length (escalate_texts (min_chars_for_length ("short".toList))
      t0 t1 t2 created_at privacy_level fallback_title).article_json =
      max a1.body_markdown.length a2.body_markdown.length := by
  have hmc : min_chars_for_length ("short".toList) = 300 := by decide
  have hlt : a0.body_markdown.length < 300 := by omega
  simp only [escalate_texts, h0, h1, h2, hmc]
  by_cases hc : a1.body_markdown.length ≤ a2.body_markdown.length
  · simp [escalate_results, article_body_length, hlt, hl1, hc, Nat.max_eq_right hc]
  · simp [escalate_results, article_body_length, hlt, hl1, hc,
      Nat.max_eq_left (Nat.le_of_lt (Nat.lt_of_not_le hc))]

set_option maxRecDepth 8000 in
/-- **C1 witness** — the amended claim at concrete inputs: initial attempt a
plain 50-character text, retried attempt 30 characters, expanded attempt 40
characters (all parsed through the markdown fallback); RETRIED and EXPANDED
are performed and the final body length is `max 30 40`. -/
theorem C1_short_escalation_witness :
    Stage.RETRIED ∈ (escalate_texts (min_chars_for_length ("short".toList))
      (List.replicate 50 'a') (List.replicate 30 'b') (List.replicate 40 'c')
      ("ca".toList) ("pl".toList) ("ft".toList)).stages ∧
    Stage.EXPANDED ∈ (escalate_texts (min_chars_for_length ("short".toList))
      (List.replicate 50 'a') (List.replicate 30 'b') (List.replicate 40 'c')
      ("ca".toList) ("pl".toList) ("ft".toList)).stages ∧
    article_body_length (escalate_texts (min_chars_for_length ("short".toList))
      (List.replicate 50 'a') (List.replicate 30 'b') (List.replicate 40 'c')
      ("ca".toList) ("pl".toList) ("ft".toList)).article_json =
      max (List.replicate 30 'b').length (List.replicate 40 'c').length := by
  exact C1_short_escalation_amended
    (List.replicate 50 'a') (List.replicate 30 'b') (List.replicate 40 'c')
    ("ca".toList) ("pl".toList) ("ft".toList)
    ⟨"ft".toList, "ca".toList, "pl".toList, [], List.replicate 50 'a',
      "unknown".toList, "unspecified".toList⟩
    ⟨"ft".toList, "ca".toList, "pl".toList, [], List.replicate 30 'b',
      "unknown".toList, "unspecified".toList⟩
    ⟨"ft".toList, "ca".toList, "pl".toList, [], List.replicate 40 'c',
      "unknown".toList, "unspecified".toList⟩
    parsed_as_markdown_msg parsed_as_markdown_msg parsed_as_markdown_msg
    (by decide) (by decide) (by decide) (by decide) (by decide)

set_option maxRecDepth 8000 in
/-- **C1 counterexample** — the claim as stated is false: with
`length="short"`, an initial attempt of body length 50, a retried attempt of
body length 30 and an expanded attempt of body length 40 (each parsing to a
normalized Article), the final stored body length is 40, not the maximum 50
of the three attempts: the RETRIED candidate replaced the longer INITIAL one
unconditionally. -/
theorem C1_counterexample :
    article_body_length (coerce_response_to_article_json (List.replicate 50 'a')
      ("ca".toList) ("pl".toList) ("ft".toList)).1 = 50 ∧
    article_body_length (coerce_response_to_article_json (List.replicate 30 'b')
      ("ca".toList) ("pl".toList) ("ft".toList)).1 = 30 ∧
    article_body_length (coerce_response_to_article_json (List.replicate 40 'c')
      ("ca".toList) ("pl".toList) ("ft".toList)).1 = 40 ∧
    article_body_length (escalate_texts (min_chars_for_length ("short".toList))
      (List.replicate 50 'a') (List.replicate 30 'b') (List.replicate 40 'c')
      ("ca".toList) ("pl".toList) ("ft".toList)).article_json = 40 ∧
    (40 : Nat) ≠ max 50 (max 30 40) := by
  refine ⟨by decide, by decide, by decide, by decide, by decide⟩

/-- **C3** — When the credential lookup returns empty, the handler makes no
model call (`stages = []`), and the single outcome it writes has
`error_message = "Gemini API key is missing."`, `body_json` equal to the
fallback object (encoded `none`), and `body_markdown` equal to the
deterministic placeholder built from the fallback title
`"Auto draft " + article_id[:8]`, `created_at` and `privacy_level`. -/
theorem C3_missing_credential
    (length_tier article_id created_at privacy_level now t0 t1 t2 : Str) :
    (process_record [] length_tier article_id created_at privacy_level now t0 t1 t2).stages = [] ∧
    (process_record [] length_tier article_id created_at privacy_level now t0 t1 t2).outcome.error_message
      = key_missing_msg ∧
    (process_record [] length_tier article_id created_at privacy_level now t0 t1 t2).outcome.body_json
      = none ∧
    (process_record [] length_tier article_id created_at privacy_level now t0 t1 t2).outcome.body_markdown
      = build_markdown ("Auto draft ".toList ++ article_id.take 8) created_at privacy_level := by
  have hne : key_missing_msg ≠ [] := by decide
  refine ⟨?_, ?_, ?_, ?_⟩ <;> simp [process_record, hne]

theorem gemini_loop_from_attempts_le (f : Nat → AttemptResult) :
    ∀ (fuel a : Nat), (gemini_loop_from f a fuel).attempts ≤ a + fuel + 1 := by
  intro fuel
  induction fuel with
  | zero =>
    intro a
    rw [gemini_loop_from]
    cases hfa : f a <;> simp
  | succ n ih =>
    intro a
    rw [gemini_loop_from]
    cases hfa : f a <;> simp
    · have := ih (a + 1); omega
    · have := ih (a + 1); omega

/-- **C4** — The model client retries only on network timeouts: with the
default budget `GEMINI_MAX_RETRIES = 2`, two consecutive timeouts followed
by a success return the successful attempt's payload without raising, after
backoffs `min(2^0,8) = 1` and `min(2^1,8) = 2`; an HTTP application error or
a non-timeout transport error raises immediately (one attempt, no backoff);
and for any oracle the loop makes at most `max_retries + 1` attempts. -/
theorem C4_retry_policy
    (f g h k : Nat → AttemptResult) (raw : Json) (m0 m1 d em : Str) (c max_retries : Nat)
    (h0 : f 0 = .timeoutErr m0) (h1 : f 1 = .timeoutErr m1) (h2 : f 2 = .success raw)
    (hg : g 0 = .httpError c d) (hh : h 0 = .urlOther em) :
    (gemini_request_loop f GEMINI_MAX_RETRIES).result = .ok raw ∧
    (gemini_request_loop f GEMINI_MAX_RETRIES).backoffs = [1, 2] ∧
    (gemini_request_loop f GEMINI_MAX_RETRIES).attempts = 3 ∧
    (gemini_request_loop g max_retries).result = .error (gemini_api_error_msg c d) ∧
    (gemini_request_loop g max_retries).attempts = 1 ∧
    (gemini_request_loop g max_retries).backoffs = [] ∧
    (gemini_request_loop h max_retries).result = .error (gemini_request_failed_msg em) ∧
    (gemini_request_loop h max_retries).attempts = 1 ∧
    (gemini_request_loop h max_retries).backoffs = [] ∧
    (gemini_request_loop k max_retries).attempts ≤ max_retries + 1 := by
  have hb : gemini_request_loop f GEMINI_MAX_RETRIES = ⟨.ok raw, 3, [1, 2]⟩ := by
    simp [gemini_request_loop, GEMINI_MAX_RETRIES, gemini_loop_from, h0, h1, h2]
  have hgl : gemini_request_loop g max_retries =
      ⟨.error (gemini_api_error_msg c d), 1, []⟩ := by
    unfold gemini_request_loop
    cases max_retries <;> simp [gemini_loop_from, hg]
  have hhl : gemini_request_loop h max_retries =
      ⟨.error (gemini_request_failed_msg em), 1, []⟩ := by
    unfold gemini_request_loop
    cases max_retries <;> simp [gemini_loop_from, hh]
  have hk2 : (gemini_request_loop k max_retries).attempts ≤ max_retries + 1 := by
    have hbound := gemini_loop_from_attempts_le k max_retries 0
    simp only [gemini_request_loop]
    omega
  refine ⟨?_, ?_, ?_, ?_, ?_, ?_, ?_, ?_, ?_, hk2⟩ <;> simp [hb, hgl, hhl]

/-- **C4 witness** — the scenario at a concrete oracle: attempts 0 and 1
time out, attempt 2 succeeds; a second oracle fails with HTTP 500
immediately; a third fails with a non-timeout URL error immediately. -/
theorem C4_retry_policy_witness :
    (gemini_request_loop
      (fun n => if n = 0 then .timeoutErr ("t0".toList) else if n = 1 then .timeoutErr ("t1".toList)
                else .success (Json.obj [])) GEMINI_MAX_RETRIES).result = .ok (Json.obj []) ∧
    (gemini_request_loop
      (fun n => if n = 0 then .timeoutErr ("t0".toList) else if n = 1 then .timeoutErr ("t1".toList)
                else .success (Json.obj [])) GEMINI_MAX_RETRIES).backoffs = [1, 2] ∧
    (gemini_request_loop
      (fun n => if n = 0 then .timeoutErr ("t0".toList) else if n = 1 then .timeoutErr ("t1".toList)
                else .success (Json.obj [])) GEMINI_MAX_RETRIES).attempts = 3 ∧
    (gemini_request_loop (fun _ => .httpError 500 ("boom".toList)) 2).result
      = .error (gemini_api_error_msg 500 ("boom".toList)) ∧
    (gemini_request_loop (fun _ => .httpError 500 ("boom".toList)) 2).attempts = 1 ∧
    (gemini_request_loop (fun _ => .httpError 500 ("boom".toList)) 2).backoffs = [] ∧
    (gemini_request_loop (fun _ => .urlOther ("refused".toList)) 2).result
      = .error (gemini_request_failed_msg ("refused".toList)) ∧
    (gemini_request_loop (fun _ => .urlOther ("refused".toList)) 2).attempts = 1 ∧
    (gemini_request_loop (fun _ => .urlOther ("refused".toList)) 2).backoffs = [] ∧
    (gemini_request_loop (fun _ => .timeoutErr ("t".toList)) 2).attempts ≤ 2 + 1 := by
  exact C4_retry_policy
    (fun n => if n = 0 then .timeoutErr ("t0".toList) else if n = 1 then .timeoutErr ("t1".toList)
              else .success (Json.obj []))
    (fun _ => .httpError 500 ("boom".toList))
    (fun _ => .urlOther ("refused".toList))
    (fun _ => .timeoutErr ("t".toList))
    (Json.obj []) ("t0".toList) ("t1".toList) ("boom".toList) ("refused".toList) 500 2
    rfl rfl rfl rfl rfl

theorem coerce_empty_text (created_at privacy_level fallback_title : Str) :
    coerce_response_to_article_json [] created_at privacy_level fallback_title
      = (none, not_valid_json_msg) := rfl

/-- **C5** — When the API response has zero candidates (the `candidates`
field absent or an empty list), `_call_gemini` returns the empty string
paired with the model identifier rather than raising; and a unit whose
model calls all return the empty string proceeds to the fallback-article
path: the outcome's markdown is the deterministic placeholder, `body_json`
is the fallback object, and the warning records the fallback. -/
theorem C5_zero_candidates
    (payload : Json) (api_key length_tier article_id created_at privacy_level now : Str)
    (hc : jget payload ("candidates".toList) = none ∨
          jget payload ("candidates".toList) = some (Json.arr []))
    (hk : api_key ≠ []) :
    gemini_response_text payload = ([], GEMINI_MODEL) ∧
    (process_record api_key length_tier article_id created_at privacy_level now [] [] []).outcome.body_markdown
      = build_markdown ("Auto draft ".toList ++ article_id.take 8) created_at privacy_level ∧
    (process_record api_key length_tier article_id created_at privacy_level now [] [] []).outcome.body_json
      = none ∧
    (process_record api_key length_tier article_id created_at privacy_level now [] [] []).outcome.error_message
      = not_valid_json_msg := by
  have hext : gemini_response_text payload = ([], GEMINI_MODEL) := by
    rcases hc with hc | hc <;>
      · unfold gemini_response_text extract_candidates_text
        rw [hc]
        try rfl
  have hmc := min_chars_pos length_tier
  have hesc : ∀ ft : Str, escalate_texts (min_chars_for_length length_tier) [] [] []
      created_at privacy_level ft =
      ⟨none, not_valid_json_msg, [Stage.INITIAL, Stage.RETRIED]⟩ := by
    intro ft
    simp [escalate_texts, coerce_empty_text, escalate_results, article_body_length,
      done_adjust, hmc]
  have hne : not_valid_json_msg ≠ [] := by decide
  refine ⟨hext, ?_, ?_, ?_⟩ <;> simp [process_record, hk, hesc, hne]

/-- **C5 witness** — the claim at a concrete payload (`{}`, no `candidates`
key) and a concrete unit. -/
theorem C5_zero_candidates_witness :
    gemini_response_text (Json.obj []) = ([], GEMINI_MODEL) ∧
    (process_record ['k'] ("short".toList) ("abc".toList) ("2024".toList) ("area".toList)
      ("now".toList) [] [] []).outcome.body_markdown
      = build_markdown ("Auto draft ".toList ++ ("abc".toList).take 8) ("2024".toList) ("area".toList) ∧
    (process_record ['k'] ("short".toList) ("abc".toList) ("2024".toList) ("area".toList)
      ("now".toList) [] [] []).outcome.body_json = none ∧
    (process_record ['k'] ("short".toList) ("abc".toList) ("2024".toList) ("area".toList)
      ("now".toList) [] [] []).outcome.error_message = not_valid_json_msg := by
  exact C5_zero_candidates (Json.obj []) ['k'] ("short".toList) ("abc".toList) ("2024".toList)
    ("area".toList) ("now".toList) (Or.inl rfl) (by decide)

theorem normalize_tags_all_stripped (j : Json) :
    (normalize_tags j).all (fun t => !t.isEmpty && (py_strip t == t)) = true := by
  cases j <;> try rfl
  case arr xs =>
    simp only [normalize_tags, List.all_eq_true]
    intro t ht
    obtain ⟨x, hx, hxt⟩ := List.mem_filterMap.mp ht
    obtain ⟨hne, hst⟩ := as_text_json_stripped hxt
    simp [List.isEmpty_iff, hne, hst]

/-- **C8** — `_normalize_article_json` always yields all six leaf fields
(structurally guaranteed by the `Article` record): `title`, `date`,
`location` fall back to `fallback_title`, `created_at`, `privacy_level`
when the source value is missing, not a string, or blank (i.e. when
`_as_text` rejects it); `captured_at` and the capture location fall back to
"unknown" / "unspecified" both when `capture_info` is not a dict and when
its entries are missing/blank/non-string; `tags` is `[]` when the source
`tags` is not a list, and in every case contains only non-empty
(whitespace-stripped) strings — non-string and blank entries discarded. -/
theorem C8_normalize_invariant
    (d dt dd dl dc dcf dg : Json) (fs : List (Str × Json)) (ca pl ft : Str)
    (ht : as_text_opt (jget dt ("title".toList)) = none)
    (hd : as_text_opt (jget dd ("date".toList)) = none)
    (hl : as_text_opt (jget dl ("location".toList)) = none)
    (hc : jget dc ("capture_info".toList) = none)
    (hcf : jget dcf ("capture_info".toList) = some (Json.obj fs))
    (hc1 : as_text_opt (jget (Json.obj fs) ("captured_at".toList)) = none)
    (hc2 : as_text_opt (jget (Json.obj fs) ("location".toList)) = none)
    (hg : jget dg ("tags".toList) = none) :
    (normalize_article_json dt ca pl ft).title = ft ∧
    (normalize_article_json dd ca pl ft).date = ca ∧
    (normalize_article_json dl ca pl ft).location = pl ∧
    (normalize_article_json dc ca pl ft).captured_at = "unknown".toList ∧
    (normalize_article_json dc ca pl ft).capture_location = "unspecified".toList ∧
    (normalize_article_json dcf ca pl ft).captured_at = "unknown".toList ∧
    (normalize_article_json dcf ca pl ft).capture_location = "unspecified".toList ∧
    (normalize_article_json dg ca pl ft).tags = [] ∧
    ((normalize_article_json d ca pl ft).tags.all
      (fun t => !t.isEmpty && (py_strip t == t))) = true := by
  have hdc : as_dict_or_empty (jget dc ("capture_info".toList)) = Json.obj [] := by
    rw [hc]; rfl
  have hdcf : as_dict_or_empty (jget dcf ("capture_info".toList)) = Json.obj fs := by
    rw [hcf]; rfl
  refine ⟨?_, ?_, ?_, ?_, ?_, ?_, ?_, ?_, ?_⟩
  · unfold normalize_article_json
    rw [ht]; rfl
  · unfold normalize_article_json
    rw [hd]; rfl
  · unfold normalize_article_json
    rw [hl]; rfl
  · unfold normalize_article_json
    rw [hdc]; rfl
  · unfold normalize_article_json
    rw [hdc]; rfl
  · unfold normalize_article_json
    change (as_text_opt (jget (as_dict_or_empty (jget dcf ("capture_info".toList)))
      ("captured_at".toList))).getD ("unknown".toList) = "unknown".toList
    rw [hdcf, hc1]; rfl
  · unfold normalize_article_json
    change (as_text_opt (jget (as_dict_or_empty (jget dcf ("capture_info".toList)))
      ("location".toList))).getD ("unspecified".toList) = "unspecified".toList
    rw [hdcf, hc2]; rfl
  · unfold normalize_article_json
    rw [hg]; rfl
  · unfold normalize_article_json
    cases hj : jget d ("tags".toList) with
    | none => rfl
    | some j => simpa [normalize_tags_opt] using normalize_tags_all_stripped j

/-- **C8 witness** — the invariant at a concrete malformed input: missing
title, blank date, numeric location, missing / blank capture info, and a
tags list mixing a padded string, a number, a blank string and a clean
string (the result keeps only the stripped non-empty strings). -/
theorem C8_normalize_invariant_witness :
    (normalize_article_json (Json.obj []) ("2024".toList) ("area".toList) ("fb".toList)).title
      = "fb".toList ∧
    (normalize_article_json (Json.obj [("date".toList, Json.str ("   ".toList))])
      ("2024".toList) ("area".toList) ("fb".toList)).date = "2024".toList ∧
    (normalize_article_json (Json.obj [("location".toList, Json.num 5)])
      ("2024".toList) ("area".toList) ("fb".toList)).location = "area".toList ∧
    (normalize_article_json (Json.obj []) ("2024".toList) ("area".toList) ("fb".toList)).captured_at
      = "unknown".toList ∧
    (normalize_article_json (Json.obj []) ("2024".toList) ("area".toList) ("fb".toList)).capture_location
      = "unspecified".toList ∧
    (normalize_article_json
      (Json.obj [("capture_info".toList, Json.obj [("captured_at".toList, Json.str [])])])
      ("2024".toList) ("area".toList) ("fb".toList)).captured_at = "unknown".toList ∧
    (normalize_article_json
      (Json.obj [("capture_info".toList, Json.obj [("captured_at".toList, Json.str [])])])
      ("2024".toList) ("area".toList) ("fb".toList)).capture_location = "unspecified".toList ∧
    (normalize_article_json (Json.obj []) ("2024".toList) ("area".toList) ("fb".toList)).tags = [] ∧
    ((normalize_article_json
      (Json.obj [("tags".toList,
        Json.arr [Json.str ("  sunset ".toList), Json.num 3, Json.str ("   ".toList),
          Json.str ("beach".toList)])])
      ("2024".toList) ("area".toList) ("fb".toList)).tags.all
      (fun t => !t.isEmpty && (py_strip t == t))) = true := by
  exact C8_normalize_invariant
    (Json.obj [("tags".toList,
      Json.arr [Json.str ("  sunset ".toList), Json.num 3, Json.str ("   ".toList),
        Json.str ("beach".toList)])])
    (Json.obj []) (Json.obj [("date".toList, Json.str ("   ".toList))])
    (Json.obj [("location".toList, Json.num 5)]) (Json.obj [])
    (Json.obj [("capture_info".toList, Json.obj [("captured_at".toList, Json.str [])])])
    (Json.obj []) [("captured_at".toList, Json.str [])]
    ("2024".toList) ("area".toList) ("fb".toList)
    rfl rfl rfl rfl rfl rfl rfl rfl

set_option maxRecDepth 8000 in
/-- **C10** — When the raw text does not parse as JSON in full (first
conjunct: `json.loads` on the stripped text fails), `_extract_json` still
recovers the substring from the first `{` to the last `}`; for a text
embedding a valid JSON object with a non-empty `body_markdown` inside
surrounding prose, `coerce` returns the Article normalized from that
embedded object with an empty warning — the JSON path, not the
markdown-fallback parser (which would have set a warning). -/
theorem C10_embedded_json_object :
    (jsonParse (py_strip
      ("Here is your article: \x7b\"body_markdown\": \"hello world\"\x7d Enjoy!".toList))).isNone
      = true ∧
    coerce_response_to_article_json
      ("Here is your article: \x7b\"body_markdown\": \"hello world\"\x7d Enjoy!".toList)
      ("ca".toList) ("pl".toList) ("ft".toList) =
      (some ⟨"ft".toList, "ca".toList, "pl".toList, [], "hello world".toList,
        "unknown".toList, "unspecified".toList⟩, []) := by
  exact ⟨by decide, by decide⟩

/-! ## Lemmas for the code-fence stripping path (`_extract_json`) -/

theorem py_rstrip_append_space {d : Char} (hd : isPySpace d = true) (s : Str) :
    py_rstrip (s ++ [d]) = py_rstrip s := by
  simp [py_rstrip, List.reverse_append, List.dropWhile_cons, hd]

theorem py_lstrip_cons_space {c : Char} (hc : isPySpace c = true) (s : Str) :
    py_lstrip (c :: s) = py_lstrip s := by
  simp [py_lstrip, List.dropWhile_cons, hc]

theorem py_strip_ends_nonspace (c d : Char) (mid : Str)
    (h1 : isPySpace c = false) (h2 : isPySpace d = false) :
    py_strip (c :: (mid ++ [d])) = c :: (mid ++ [d]) := by
  have hl : py_lstrip (c :: (mid ++ [d])) = c :: (mid ++ [d]) := by
    simp [py_lstrip, List.dropWhile_cons, h1]
  have hr : py_rstrip (c :: (mid ++ [d])) = c :: (mid ++ [d]) := by
    have : c :: (mid ++ [d]) = (c :: mid) ++ [d] := by simp
    rw [this]
    simp [py_rstrip, List.reverse_append, List.dropWhile_cons, h2]
  rw [py_strip, hl, hr]

theorem fence_wrap_cons_form (T : Str) :
    fence_wrap T = '`' :: (("``json\n".toList ++ T ++ "\n``".toList) ++ ['`']) := by
  simp [fence_wrap]

theorem py_strip_fence_wrap (T : Str) : py_strip (fence_wrap T) = fence_wrap T := by
  rw [fence_wrap_cons_form]
  exact py_strip_ends_nonspace '`' '`' _ (by decide) (by decide)

theorem starts_with_fence (T : Str) : starts_with ("```".toList) (fence_wrap T) = true := by
  simp [starts_with, fence_wrap, List.isPrefixOf]

theorem strip_set_backtick_fence (T : Str) :
    strip_set is_backtick (fence_wrap T) = "json\n".toList ++ T ++ ['\n'] := by
  simp only [fence_wrap, strip_set]
  have hdw : List.dropWhile is_backtick ("```json\n".toList ++ T ++ "\n```".toList)
      = "json\n".toList ++ T ++ "\n```".toList := by
    simp [List.dropWhile_cons, is_backtick]
  rw [hdw]
  have hrev : ("json\n".toList ++ T ++ "\n```".toList).reverse
      = '`' :: '`' :: '`' :: '\n' :: (T.reverse ++ ("json\n".toList).reverse) := by
    simp [List.reverse_append]
  rw [hrev]
  simp [List.dropWhile_cons, is_backtick, List.reverse_append]

theorem replace_first_json_tag (T : Str) :
    replace_first ("json\n".toList ++ T ++ ['\n']) ("json".toList) = '\n' :: (T ++ ['\n']) := by
  have hpre : ("json".toList).isPrefixOf ("json\n".toList ++ T ++ ['\n']) = true := by
    simp [List.isPrefixOf]
  simp [replace_first, hpre]

theorem py_strip_nl_wrap (T : Str) : py_strip ('\n' :: (T ++ ['\n'])) = py_strip T := by
  rw [py_strip, py_lstrip_cons_space (by decide)]
  rw [py_strip]
  rcases hdw : List.dropWhile isPySpace T with _ | ⟨c, t⟩
  · have hnil : py_lstrip (T ++ ['\n']) = [] := by
      simp [py_lstrip, List.dropWhile_append, hdw, isPySpace]
    rw [hnil]
    simp [py_lstrip, hdw]
  · have hla : py_lstrip (T ++ ['\n']) = (c :: t) ++ ['\n'] := by
      simp [py_lstrip, List.dropWhile_append, hdw, isPySpace]
    rw [hla, py_rstrip_append_space (by decide)]
    simp [py_lstrip, hdw]

theorem fence_wrap_ne_nil (T : Str) : fence_wrap T ≠ [] := by
  rw [fence_wrap_cons_form]
  simp

theorem extract_json_nil : extract_json [] = none := rfl

/-- The fence-stripping path of `_extract_json` recovers exactly the
fenceless candidate when the inner text itself does not begin with a code
fence: both calls parse the same stripped string. -/
theorem extract_json_fence_wrap (T : Str)
    (hnf : starts_with ("```".toList) (py_strip T) = false) (hT : T ≠ []) :
    extract_json (fence_wrap T) = extract_json T := by
  rw [extract_json, extract_json]
  rw [if_neg (fence_wrap_ne_nil T), if_neg hT]
  simp only [py_strip_fence_wrap, starts_with_fence, strip_set_backtick_fence,
    replace_first_json_tag, py_strip_nl_wrap, hnf, if_true, Bool.false_eq_true, if_false]

theorem jTruthy_of_jget {o v : Json} {k : Str} (h : jget o k = some v) : jTruthy o = true := by
  cases o with
  | obj fs =>
    cases fs with
    | nil => exact Option.noConfusion h
    | cons p ps => rfl
  | str s => exact Option.noConfusion h
  | num n => exact Option.noConfusion h
  | bool b2 => exact Option.noConfusion h
  | null => exact Option.noConfusion h
  | arr xs => exact Option.noConfusion h

/-- **C7 (amended)** — For a raw model text that does not itself begin with a
code fence and whose JSON extraction succeeds with a non-empty
`body_markdown`, `coerce` on the text wrapped in a ```` ```json ```` fence
returns the same (Article, warning) pair as `coerce` on the fenceless text:
the fence-stripping path reduces the wrapped candidate to the identical
stripped string is parsed.  (The original universal claim is false for texts
that fail JSON extraction — the markdown fallback then parses the two
different raw texts — see the counterexample.) -/
theorem C7_fenced_equals_fenceless_amended
    (T created_at privacy_level fallback_title : Str) (o : Json) (b : Str)
    (hnf : starts_with ("```".toList) (py_strip T) = false)
    (he : extract_json T = some o)
    (hb : as_text_opt (jget o ("body_markdown".toList)) = some b) :
    coerce_response_to_article_json (fence_wrap T) created_at privacy_level fallback_title =
      coerce_response_to_article_json T created_at privacy_level fallback_title := by
  have hT : T ≠ [] := by
    intro hnil
    rw [hnil, extract_json_nil] at he
    exact Option.noConfusion he
  have hext := extract_json_fence_wrap T hnf hT
  have htr : jTruthy o = true := by
    rcases hj : jget o ("body_markdown".toList) with _ | j
    · rw [hj] at hb; simp [as_text_opt] at hb
    · exact jTruthy_of_jget hj
  rw [coerce_response_to_article_json, coerce_response_to_article_json, hext, he]
  simp only [htr]
  simp at hb
  simp [hb]

/-- **C7 witness** — the amended claim at a concrete input: a JSON object
with a non-empty body, with and without the fence, coerces identically. -/
theorem C7_fenced_equals_fenceless_witness :
    coerce_response_to_article_json
      (fence_wrap ("\x7b\"body_markdown\": \"hello\"\x7d".toList))
      ("ca".toList) ("pl".toList) ("ft".toList) =
      coerce_response_to_article_json ("\x7b\"body_markdown\": \"hello\"\x7d".toList)
        ("ca".toList) ("pl".toList) ("ft".toList) := by
  exact C7_fenced_equals_fenceless_amended
    ("\x7b\"body_markdown\": \"hello\"\x7d".toList)
    ("ca".toList) ("pl".toList) ("ft".toList)
    (Json.obj [("body_markdown".toList, Json.str ("hello".toList))])
    ("hello".toList) (by decide) rfl rfl

/-- **C7 counterexample** — the claim as stated (for *every* raw model text)
is false: for the plain text `"hello"`, which fails JSON extraction, the
fenceless coerce parses `"hello"` via the markdown fallback while the
fenced coerce parses the literal fenced text, so the two (Article, warning)
pairs differ. -/
theorem C7_counterexample :
    coerce_response_to_article_json (fence_wrap ("hello".toList))
      ("ca".toList) ("pl".toList) ("ft".toList) ≠
      coerce_response_to_article_json ("hello".toList)
        ("ca".toList) ("pl".toList) ("ft".toList) := by
  decide

/-! ## Line-structure lemmas for the markdown round trip (C6) -/

theorem json_escape_char_plain {c : Char} (h1 : ¬ c = '"') (h2 : ¬ c = '\\')
    (h3 : 32 ≤ c.toNat) : json_escape_char c = [c] := by
  unfold json_escape_char
  rw [if_neg h1, if_neg h2,
    if_neg (by rintro rfl; exact absurd h3 (by decide)),
    if_neg (by rintro rfl; exact absurd h3 (by decide)),
    if_neg (by rintro rfl; exact absurd h3 (by decide)),
    if_neg (by rintro rfl; exact absurd h3 (by decide)),
    if_neg (by rintro rfl; exact absurd h3 (by decide)),
    if_neg (Nat.not_lt.mpr h3)]

theorem plain_tag_chars {t : Str} (h : plain_tag t = true) :
    ∀ c ∈ t, plain_char c = true := by
  unfold plain_tag at h
  simp only [Bool.and_eq_true] at h
  intro c hc
  have := List.all_eq_true.mp h.2 c hc
  simpa [plain_char] using this

theorem plain_char_props {c : Char} (h : plain_char c = true) :
    ¬ c = '"' ∧ ¬ c = '\\' ∧ 32 ≤ c.toNat := by
  simp only [plain_char, Bool.and_eq_true, Bool.not_eq_true', beq_eq_false_iff_ne,
    decide_eq_true_eq] at h
  exact ⟨h.1.1.1, h.1.1.2, h.1.2⟩

theorem escape_flatten_plain {t : Str} (hall : ∀ c ∈ t, plain_char c = true) :
    (t.map json_escape_char).flatten = t := by
  induction t with
  | nil => rfl
  | cons c u ih =>
    obtain ⟨h1, h2, h3⟩ := plain_char_props (hall c (List.mem_cons_self c u))
    rw [List.map_cons, List.flatten_cons, json_escape_char_plain h1 h2 h3,
      ih (fun d hd => hall d (List.mem_cons_of_mem c hd))]
    rfl

theorem json_dumps_string_plain {t : Str} (h : plain_tag t = true) :
    json_dumps_string t = '"' :: (t ++ ['"']) := by
  unfold json_dumps_string
  rw [escape_flatten_plain (plain_tag_chars h)]
  rfl

theorem strip_set_ends_false {p : Char → Bool} {c d : Char} (mid : Str)
    (h1 : p c = false) (h2 : p d = false) :
    strip_set p (c :: (mid ++ [d])) = c :: (mid ++ [d]) := by
  have hl : List.dropWhile p (c :: (mid ++ [d])) = c :: (mid ++ [d]) := by
    simp [List.dropWhile_cons, h1]
  unfold strip_set
  rw [hl]
  have hsh : c :: (mid ++ [d]) = (c :: mid) ++ [d] := by simp
  rw [hsh, List.reverse_append]
  simp [List.dropWhile_cons, h2]

theorem join_chars_ge32 (TS : List Str) (hp : ∀ t ∈ TS, plain_tag t = true) :
    ∀ c ∈ join_comma_space (TS.map json_dumps_string), 32 ≤ c.toNat := by
  induction TS with
  | nil => intro c hc; simp [join_comma_space] at hc
  | cons t ts ih =>
    have hdc : ∀ c ∈ json_dumps_string t, 32 ≤ c.toNat := by
      rw [json_dumps_string_plain (hp t (List.mem_cons_self t ts))]
      intro c hc
      rcases List.mem_cons.mp hc with rfl | hc2
      · decide
      · rcases List.mem_append.mp hc2 with hc3 | hc3
        · exact (plain_char_props (plain_tag_chars (hp t (List.mem_cons_self t ts)) c hc3)).2.2
        · simp at hc3; subst hc3; decide
    cases ts with
    | nil =>
      intro c hc
      simp only [List.map_cons, List.map_nil] at hc
      exact hdc c hc
    | cons t2 ts2 =>
      intro c hc
      simp only [List.map_cons] at hc ⊢
      have hjoin : ∀ (x y : Str) (l : List Str),
          join_comma_space (x :: y :: l) = x ++ ',' :: ' ' :: join_comma_space (y :: l) :=
        fun x y l => rfl
      rw [hjoin] at hc
      rcases List.mem_append.mp hc with hc2 | hc2
      · exact hdc c hc2
      · rcases List.mem_cons.mp hc2 with rfl | hc3
        · decide
        · rcases List.mem_cons.mp hc3 with rfl | hc4
          · decide
          · have := ih (fun u hu => hp u (List.mem_cons_of_mem t hu)) c
            simp only [List.map_cons] at this
            exact this hc4

